import Mathlib

/-!
Verification of the cycle-analysis and risk-scoring engine of the FemCare
backend (routers/insights.py, routers/cycles.py, agent/tools/cycle_analyzer.py,
agent/core.py).

Modelling conventions of the shallow embedding:
* Calendar dates are day numbers in ℤ; a date difference in days is plain
  integer subtraction, matching the invariant that dates carry no time of day.
* Python floats are modelled as ℚ.  The builtin round (round half to even)
  is modelled exactly by pyround, and round(x, 2) by pyround2.
* numpy std is the nonnegative square root of the population variance.  The
  code only ever compares std against constants or feeds it to arithmetic, so
  functions that need the standard deviation take it as an explicit ℚ
  parameter; the predicate IsPopStd ties that parameter to the variance of the
  list.  Comparisons the code makes directly on std inside scorers
  (std > 7, std > 10) are modelled by the exact equivalent variance
  comparisons (var > 49, var > 100).
* The handlers read the current date once; that value is passed in as the
  explicit parameter today.
* A factor record is modelled by its label string; the formatted value and the
  impact field of the record never influence any computation or claim.
* Python truthiness tests on lists (if xs:) are modelled by emptiness tests,
  and on numbers (if user.weight:) by a nonzero test.
-/

/- ## Generic string helpers (structural, so that the kernel can evaluate) -/

def startsWithL : List Char → List Char → Bool
  | _, [] => true
  | [], _ :: _ => false
  | a :: as, b :: bs => a == b && startsWithL as bs

def containsL : List Char → List Char → Bool
  | [], pat => pat.isEmpty
  | a :: t, pat => startsWithL (a :: t) pat || containsL t pat

/-- Python substring test, sub in hay. -/
def containsStr (hay sub : String) : Bool := containsL hay.data sub.data

/-- Python str.lower(). -/
def lowerStr (s : String) : String := ⟨s.data.map Char.toLower⟩

def eqStr (a b : String) : Bool := a.data == b.data

/- ## Numeric helpers -/

/-- Python round to the nearest integer, ties going to the even integer. -/
def pyround (q : ℚ) : ℤ :=
  let f := ⌊q⌋
  let r := q - f
  if r < 1/2 then f
  else if 1/2 < r then f + 1
  else if f % 2 = 0 then f else f + 1

/-- Python round(x, 2). -/
def pyround2 (q : ℚ) : ℚ := (pyround (100 * q) : ℚ) / 100

/-- numpy mean of a rational list (0 on the empty list). -/
def qmean (l : List ℚ) : ℚ := l.sum / l.length

/-- numpy mean of an integer list. -/
def zmean (l : List ℤ) : ℚ := qmean (l.map fun x : ℤ => (x : ℚ))

/-- Population variance, the square of numpy std. -/
def popVar (l : List ℤ) : ℚ := qmean (l.map fun x : ℤ => ((x : ℚ) - zmean l) ^ 2)

/-- std is the value numpy std returns for l: the nonnegative square root of
the population variance. -/
def IsPopStd (l : List ℤ) (std : ℚ) : Prop := 0 ≤ std ∧ std ^ 2 = popVar l

def maxOf : List ℤ → ℤ
  | [] => 0
  | a :: r => r.foldl max a

def minOf : List ℤ → ℤ
  | [] => 0
  | a :: r => r.foldl min a

/- ## List helpers for cycle start dates -/

def insertDate (x : ℤ) : List ℤ → List ℤ
  | [] => [x]
  | y :: ys => if x ≤ y then x :: y :: ys else y :: insertDate x ys

/-- Python sorted() on a list of dates. -/
def sortDates (l : List ℤ) : List ℤ := l.foldr insertDate []

/-- All adjacent start-date differences of a list. -/
def adjDiffs : List ℤ → List ℤ
  | a :: b :: rest => (b - a) :: adjDiffs (b :: rest)
  | _ => []

/-- CycleAnalyzer._calculate_cycle_lengths and the identical loops in
cycles.predict_next_cycle and agent core: walk adjacent pairs of sorted start
dates, keeping a difference only when it lies in [15, 60] days. -/
def _calculate_cycle_lengths : List ℤ → List ℤ
  | a :: b :: rest =>
    (if 15 ≤ b - a ∧ b - a ≤ 60 then [b - a] else []) ++
      _calculate_cycle_lengths (b :: rest)
  | _ => []

def lastOf (l : List ℤ) : ℤ := (l.getLast?).getD 0

/- ## Data model -/

structure Symptom where
  symptom_type : String
  category : String
  severity : ℚ
deriving DecidableEq

structure CycleEntry where
  start_date : ℤ
  cycle_length : Option ℤ
  flow_level : String
deriving DecidableEq

structure User where
  weight : Option ℚ
  height : Option ℚ
  is_on_birth_control : Bool
deriving DecidableEq

structure RiskOut where
  score : ℚ
  confidence : ℚ
  factors : List String
deriving DecidableEq

/- ## Shared symptom / cycle filters used by the scorers -/

def symLower (s : Symptom) : String := lowerStr s.symptom_type

def hasKw (s : Symptom) (kw : String) : Bool := containsStr (symLower s) kw

def kwSyms (symptoms : List Symptom) (kw : String) : List Symptom :=
  symptoms.filter fun s => hasKw s kw

def inCategory (s : Symptom) (c : String) : Bool := eqStr s.category c

def severities (l : List Symptom) : List ℚ := l.map fun s => s.severity

/-- The list comprehension [c.cycle_length for c in cycles if c.cycle_length]:
keeps the stored cached cycle_length values, dropping missing and zero ones
(Python truthiness). -/
def storedLengths (cycles : List CycleEntry) : List ℤ :=
  cycles.filterMap fun c =>
    match c.cycle_length with
    | some l => if l = 0 then none else some l
    | none => none

def heavyCycles (cycles : List CycleEntry) : List CycleEntry :=
  cycles.filter fun c => eqStr c.flow_level "heavy" || eqStr c.flow_level "very_heavy"

def bmiOf (w h : ℚ) : ℚ := w / ((h / 100) ^ 2)

/- ## Evidence accumulation (insights.py).  Each scorer builds parallel
scores/weights lists; an (evidence score, weight) pair list models that
lockstep pair of appends. -/

def evIf (c : Prop) [Decidable c] (sc w : ℚ) : List (ℚ × ℚ) :=
  if c then [(sc, w)] else []

def factIf (c : Prop) [Decidable c] (lab : String) : List String :=
  if c then [lab] else []

/-- np.average(scores, weights): the weighted average of the pairs. -/
def weightedAvg (ev : List (ℚ × ℚ)) : ℚ :=
  (ev.map fun p => p.1 * p.2).sum / (ev.map fun p => p.2).sum

/-- Common tail of all four insights.py scorers: when at least one evidence
pair accumulated, return the 2-decimal-rounded weighted average and rounded
confidence; otherwise the 0.1 baseline with confidence 0.2. -/
def mkRisk (ev : List (ℚ × ℚ)) (conf : ℚ) (facts : List String) : RiskOut :=
  if ev = [] then ⟨1/10, 1/5, facts⟩
  else ⟨pyround2 (weightedAvg ev), pyround2 conf, facts⟩

/- ## calculate_pcos_risk (insights.py lines 20-101) -/

def pcosCycleEv (cycles : List CycleEntry) : List (ℚ × ℚ) :=
  if 3 ≤ cycles.length then
    let ls := storedLengths cycles
    if ls = [] then []
    else
      (if 35 < zmean ls then [(4/5, 3)]
       else if 32 < zmean ls then [(1/2, 3)]
       else [(1/10, 3)]) ++
        evIf (49 < popVar ls) (7/10) 2
  else []

def pcosHormEv (symptoms : List Symptom) : List (ℚ × ℚ) :=
  let h := symptoms.filter fun s => inCategory s "hormonal"
  if h = [] then []
  else
    evIf (3 ≤ (kwSyms h "acne").length) (3/5) (3/2) ++
      evIf (2 ≤ (kwSyms h "hair").length) (1/2) (3/2) ++
        evIf (2 ≤ (kwSyms h "weight").length) (2/5) 1

def pcosBmiEv (u : User) : List (ℚ × ℚ) :=
  match u.weight, u.height with
  | some w, some h =>
    if w ≠ 0 ∧ h ≠ 0 then
      if 30 < bmiOf w h then [(3/5, 3/2)]
      else if 25 < bmiOf w h then [(3/10, 1)]
      else []
    else []
  | _, _ => []

def pcosEvidence (u : User) (cycles : List CycleEntry) (symptoms : List Symptom) :
    List (ℚ × ℚ) :=
  pcosCycleEv cycles ++ pcosHormEv symptoms ++ pcosBmiEv u

def pcosFactors (u : User) (cycles : List CycleEntry) (symptoms : List Symptom) :
    List String :=
  (if 3 ≤ cycles.length then
    let ls := storedLengths cycles
    if ls = [] then []
    else
      (if 35 < zmean ls then ["Long cycle length"]
       else if 32 < zmean ls then ["Slightly long cycles"]
       else []) ++
        factIf (49 < popVar ls) "Irregular cycle pattern"
  else []) ++
  (let h := symptoms.filter fun s => inCategory s "hormonal"
   if h = [] then []
   else
     factIf (3 ≤ (kwSyms h "acne").length) "Persistent acne" ++
       factIf (2 ≤ (kwSyms h "hair").length) "Hair-related symptoms" ++
         factIf (2 ≤ (kwSyms h "weight").length) "Weight changes") ++
  (match u.weight, u.height with
   | some w, some h =>
     if w ≠ 0 ∧ h ≠ 0 ∧ 30 < bmiOf w h then ["BMI"] else []
   | _, _ => [])

def calculate_pcos_risk (u : User) (cycles : List CycleEntry)
    (symptoms : List Symptom) : RiskOut :=
  mkRisk (pcosEvidence u cycles symptoms)
    (min (9/10) (3/10 + ((cycles.length + symptoms.length : ℕ) : ℚ) / 50))
    (pcosFactors u cycles symptoms)

/- ## calculate_endometriosis_risk (insights.py lines 104-158) -/

def matchesPain (s : Symptom) : Bool :=
  hasKw s "pain" || eqStr (symLower s) "cramps"

def painSyms (symptoms : List Symptom) : List Symptom :=
  symptoms.filter matchesPain

/-- The average-severity evidence tier of the endometriosis pain rule. -/
def endoSevEv (avg : ℚ) : List (ℚ × ℚ) :=
  if 7 ≤ avg then [(4/5, 3)] else if 5 ≤ avg then [(1/2, 3)] else []

/-- The evidence value selected by the endometriosis severity rule (0 when no
tier triggers). -/
def endoPainTier (avg : ℚ) : ℚ :=
  if 7 ≤ avg then 4/5 else if 5 ≤ avg then 1/2 else 0

def endoEvidence (symptoms : List Symptom) (cycles : List CycleEntry) :
    List (ℚ × ℚ) :=
  (let pain := painSyms symptoms
   if pain = [] then []
   else endoSevEv (qmean (severities pain)) ++ evIf (10 ≤ pain.length) (7/10) 2) ++
    evIf (2 ≤ (heavyCycles cycles).length) (1/2) (3/2) ++
      evIf (5 ≤ (kwSyms symptoms "fatigue").length) (2/5) 1

def endoFactors (symptoms : List Symptom) (cycles : List CycleEntry) :
    List String :=
  (let pain := painSyms symptoms
   if pain = [] then []
   else
     (if 7 ≤ qmean (severities pain) then ["Severe pelvic/menstrual pain"]
      else if 5 ≤ qmean (severities pain) then ["Moderate pelvic pain"]
      else []) ++
       factIf (10 ≤ pain.length) "Frequent pain episodes") ++
    factIf (2 ≤ (heavyCycles cycles).length) "Heavy menstrual bleeding" ++
      factIf (5 ≤ (kwSyms symptoms "fatigue").length) "Chronic fatigue"

def calculate_endometriosis_risk (symptoms : List Symptom)
    (cycles : List CycleEntry) : RiskOut :=
  mkRisk (endoEvidence symptoms cycles)
    (min (17/20) (3/10 + (symptoms.length : ℚ) / 40))
    (endoFactors symptoms cycles)

/- ## calculate_anemia_risk (insights.py lines 161-216) -/

def tiredSyms (symptoms : List Symptom) : List Symptom :=
  symptoms.filter fun s => hasKw s "fatigue" || hasKw s "tired"

/-- The average-severity evidence of the anemia fatigue rule. -/
def anemiaFatigueEv (avg : ℚ) : List (ℚ × ℚ) :=
  if 6 ≤ avg then [(3/5, 2)] else []

/-- The evidence value selected by the anemia fatigue severity rule. -/
def anemiaFatigueTier (avg : ℚ) : ℚ :=
  if 6 ≤ avg then 3/5 else 0

def anemiaHeavyEv (cycles : List CycleEntry) : List (ℚ × ℚ) :=
  let heavy := heavyCycles cycles
  if heavy = [] then []
  else
    let frac := (heavy.length : ℚ) / ((max cycles.length 1 : ℕ) : ℚ)
    if 1/2 < frac then [(7/10, 3)]
    else if 1/4 < frac then [(2/5, 2)]
    else []

def anemiaEvidence (symptoms : List Symptom) (cycles : List CycleEntry) :
    List (ℚ × ℚ) :=
  anemiaHeavyEv cycles ++
    (let ft := tiredSyms symptoms
     if ft = [] then [] else anemiaFatigueEv (qmean (severities ft))) ++
      evIf (2 ≤ (kwSyms symptoms "dizz").length) (1/2) (3/2) ++
        evIf (5 ≤ (kwSyms symptoms "headache").length) (3/10) 1

def anemiaFactors (symptoms : List Symptom) (cycles : List CycleEntry) :
    List String :=
  (let heavy := heavyCycles cycles
   if heavy = [] then []
   else
     let frac := (heavy.length : ℚ) / ((max cycles.length 1 : ℕ) : ℚ)
     if 1/2 < frac then ["Consistently heavy periods"]
     else if 1/4 < frac then ["Occasional heavy periods"]
     else []) ++
  (let ft := tiredSyms symptoms
   if ft = [] then []
   else factIf (6 ≤ qmean (severities ft)) "Significant fatigue") ++
    factIf (2 ≤ (kwSyms symptoms "dizz").length) "Episodes of dizziness" ++
      factIf (5 ≤ (kwSyms symptoms "headache").length) "Frequent headaches"

def calculate_anemia_risk (symptoms : List Symptom) (cycles : List CycleEntry) :
    RiskOut :=
  mkRisk (anemiaEvidence symptoms cycles)
    (min (17/20) (3/10 + (symptoms.length : ℚ) / 40))
    (anemiaFactors symptoms cycles)

/- ## calculate_thyroid_risk (insights.py lines 219-276) -/

def thyroidCycleEv (cycles : List CycleEntry) : List (ℚ × ℚ) :=
  if 3 ≤ cycles.length then
    let ls := storedLengths cycles
    if ls = [] then [] else evIf (100 < popVar ls) (1/2) (3/2)
  else []

def thyroidEvidence (symptoms : List Symptom) (cycles : List CycleEntry) :
    List (ℚ × ℚ) :=
  evIf (2 ≤ (kwSyms symptoms "weight").length) (1/2) 2 ++
    evIf (5 ≤ (kwSyms symptoms "fatigue").length) (2/5) (3/2) ++
      evIf (8 ≤ (symptoms.filter fun s => inCategory s "emotional").length) (2/5) 1 ++
        thyroidCycleEv cycles ++
          (if kwSyms symptoms "hair" = [] then [] else [(2/5, 1)])

def thyroidFactors (symptoms : List Symptom) (cycles : List CycleEntry) :
    List String :=
  factIf (2 ≤ (kwSyms symptoms "weight").length) "Weight fluctuations" ++
    factIf (5 ≤ (kwSyms symptoms "fatigue").length) "Persistent fatigue" ++
      factIf (8 ≤ (symptoms.filter fun s => inCategory s "emotional").length)
          "Mood changes" ++
        (if 3 ≤ cycles.length then
          let ls := storedLengths cycles
          if ls = [] then []
          else factIf (100 < popVar ls) "Very irregular cycles"
        else []) ++
          (if kwSyms symptoms "hair" = [] then [] else ["Hair changes"])

def calculate_thyroid_risk (u : User) (symptoms : List Symptom)
    (cycles : List CycleEntry) : RiskOut :=
  mkRisk (thyroidEvidence symptoms cycles)
    (min (4/5) (1/4 + (symptoms.length : ℚ) / 50))
    (thyroidFactors symptoms cycles)

/- ## CycleAnalyzer._assess_regularity (cycle_analyzer.py lines 117-152) -/

structure RegOut where
  score : ℚ
  is_regular : Bool
deriving DecidableEq

def assessScore (lengths : List ℤ) (std : ℚ) : ℚ :=
  let score1 : ℚ := 1 - (if 7 < std then 3/10 else if 4 < std then 1/10 else 0)
  let out := lengths.filter fun l => decide (l < 21 ∨ 35 < l)
  let score2 : ℚ :=
    if out = [] then score1
    else score1 - ((out.length : ℚ) / (lengths.length : ℚ)) * (2/5)
  let score3 : ℚ :=
    if lengths = [] then score2
    else if 14 < maxOf lengths - minOf lengths then score2 - 1/5 else score2
  max 0 (min 1 score3)

def assess_regularity (lengths : List ℤ) (std : ℚ) : RegOut :=
  ⟨pyround2 (assessScore lengths std),
    decide (7/10 ≤ assessScore lengths std ∧ std ≤ 7)⟩

/- ## CycleAnalyzer._predict_next_cycle (cycle_analyzer.py lines 154-189) -/

/-- The linear recency weights 1, 2, ..., n that the predictors build. -/
def linWeights (n : ℕ) : List ℚ := (List.range n).map fun i : ℕ => (i : ℚ) + 1

/-- The weighted moving average exactly as the code computes it: the weights
are normalized first and np.average then divides by their sum again. -/
def wavgCode (ls : List ℤ) : ℚ :=
  let ws := linWeights ls.length
  let nws := ws.map fun w => w / ws.sum
  (List.zipWith (fun (l : ℤ) (w : ℚ) => (l : ℚ) * w) ls nws).sum / nws.sum

structure PredOut where
  date : ℤ
  confidence : ℚ
  lo : ℤ
  hi : ℤ
deriving DecidableEq

def _predict_next_cycle (lastStart : ℤ) (lengths : List ℤ) (std : ℚ) : PredOut :=
  if lengths = [] then
    ⟨lastStart + 28, 3/10, lastStart + 28 - 5, lastStart + 28 + 5⟩
  else
    let avg := wavgCode lengths
    let consistency := max 0 (1 - std / 10)
    let sample := min 1 ((lengths.length : ℚ) / 6)
    let pred := lastStart + pyround avg
    let margin := max 2 (pyround std)
    ⟨pred, pyround2 (consistency * (6/10) + sample * (4/10)),
      pred - margin, pred + margin⟩

/- ## CycleAnalyzer._determine_current_phase (cycle_analyzer.py lines 207-233).
The cycle day (today - last start + 1) is the explicit first argument. -/

def _determine_current_phase (cycleDay : ℤ) (avgLength : ℚ) : String :=
  if cycleDay ≤ 5 then "menstrual"
  else if cycleDay ≤ 13 then "follicular"
  else if cycleDay ≤ 16 then "ovulation"
  else if cycleDay ≤ pyround avgLength then "luteal"
  else "late_luteal"

/- ## cycles.py predict_next_cycle (lines 25-65) -/

def predict_next_cycle (starts : List ℤ) (std : ℚ) (today : ℤ) : ℤ × ℚ :=
  if starts.length < 2 then
    match starts with
    | s :: _ => (s + 28, 3/10)
    | [] => (today + 28, 1/10)
  else
    let sorted := sortDates starts
    let ls := _calculate_cycle_lengths sorted
    if ls = [] then (lastOf sorted + 28, 3/10)
    else
      (lastOf sorted + pyround (wavgCode ls),
        pyround2 ((max 0 (1 - std / 10)) * (6/10) +
          (min 1 ((ls.length : ℚ) / 6)) * (4/10)))

/- ## cycles.py get_current_cycle phase branch (lines 192-203) and the
identical inline branch of insights.py get_dashboard_summary (lines 662-669).
Both stop at luteal: they have no late_luteal arm. -/

def current_cycle_phase (cycleDay : ℤ) : String :=
  if cycleDay ≤ 5 then "menstrual"
  else if cycleDay ≤ 13 then "follicular"
  else if cycleDay ≤ 16 then "ovulation"
  else "luteal"

def dashboard_phase (cycleDay : ℤ) : String :=
  if cycleDay ≤ 5 then "menstrual"
  else if cycleDay ≤ 13 then "follicular"
  else if cycleDay ≤ 16 then "ovulation"
  else "luteal"

/- ## cycles.py get_current_cycle fertility fields (lines 160-231) -/

structure CurrentCycleOut where
  cycle_day : ℤ
  phase : String
  fertile_window : Option (ℤ × ℤ)
  is_fertile_window : Bool
deriving DecidableEq

/-- order_by desc(start_date).first(): the entry with the greatest start date. -/
def latestEntry (cycles : List CycleEntry) : Option CycleEntry :=
  cycles.foldl
    (fun acc c =>
      match acc with
      | none => some c
      | some m => if m.start_date < c.start_date then some c else some m)
    none

def get_current_cycle (u : User) (cycles : List CycleEntry) (today : ℤ) :
    Option CurrentCycleOut :=
  match latestEntry cycles with
  | none => none
  | some latest =>
    let cycleDay := today - latest.start_date + 1
    let ls := storedLengths cycles
    let avg : ℚ := if ls = [] then 28 else zmean ls
    let od := pyround (avg - 14)
    let fws := latest.start_date + od - 5
    let fwe := latest.start_date + od + 1
    some ⟨cycleDay, current_cycle_phase cycleDay,
      if u.is_on_birth_control then none else some (fws, fwe),
      decide (fws ≤ today ∧ today ≤ fwe)⟩

/- ## cycles.py get_cycle_prediction fertility fields (lines 234-276) -/

structure PredictionOut where
  next_period_start : ℤ
  next_ovulation : Option ℤ
  fertile_window_lo : Option ℤ
  fertile_window_hi : Option ℤ
  confidence : ℚ
deriving DecidableEq

def get_cycle_prediction (u : User) (cycles : List CycleEntry) (std : ℚ)
    (today : ℤ) : Option PredictionOut :=
  if cycles.length < 2 then none
  else
    let pr := predict_next_cycle (cycles.map fun c => c.start_date) std today
    let ls := storedLengths cycles
    let avg : ℚ := if ls = [] then 28 else zmean ls
    let od := pyround (avg - 14)
    let ovu := pr.1 - pyround (avg - od)
    some ⟨pr.1,
      if u.is_on_birth_control then none else some ovu,
      if u.is_on_birth_control then none else some (ovu - 5),
      if u.is_on_birth_control then none else some (ovu + 1),
      pr.2⟩

/- ## cycles.py get_cycle_patterns regularity fields (lines 467-482): score is
the clamped inverse coefficient of variation, is_regular needs std < 7 and
every stored length inside [21, 35]. -/

def patterns_regularity (lengths : List ℤ) (std : ℚ) : ℚ × Bool :=
  let avg := zmean lengths
  let score : ℚ := if 0 < avg ∧ 0 ≤ std then max 0 (min 1 (1 - std / avg)) else 1/2
  (pyround2 score,
    if lengths = [] then false
    else decide (std < 7 ∧ ∀ l ∈ lengths, 21 ≤ l ∧ l ≤ 35))

/- ## agent/core.py FemCareAgent._calculate_pcos_risk (lines 302-349): an
additive scorer, 0.1 baseline plus fixed increments, capped at 0.95. -/

def corePcosIncrements (u : User) (starts : List ℤ) (symptoms : List Symptom) :
    List ℚ :=
  (if 3 ≤ starts.length then
    let ls := _calculate_cycle_lengths (sortDates starts)
    if ls = [] then ([] : List ℚ)
    else
      (if 35 < zmean ls then [(1:ℚ)/4] else []) ++
        (if 49 < popVar ls then [(3:ℚ)/20] else [])
  else []) ++
    (if 3 ≤ (symptoms.filter fun s => inCategory s "hormonal").length
     then [(1:ℚ)/5] else []) ++
      (match u.weight, u.height with
       | some w, some h =>
         if w ≠ 0 ∧ h ≠ 0 ∧ 30 < bmiOf w h then [3/20] else []
       | _, _ => [])

def corePcosFactors (u : User) (starts : List ℤ) (symptoms : List Symptom) :
    List String :=
  (if 3 ≤ starts.length then
    let ls := _calculate_cycle_lengths (sortDates starts)
    if ls = [] then []
    else
      (if 35 < zmean ls then ["Long cycles"] else []) ++
        (if 49 < popVar ls then ["Irregular cycles"] else [])
  else []) ++
    (if 3 ≤ (symptoms.filter fun s => inCategory s "hormonal").length
     then ["Hormonal symptoms"] else []) ++
      (match u.weight, u.height with
       | some w, some h =>
         if w ≠ 0 ∧ h ≠ 0 ∧ 30 < bmiOf w h then ["BMI over 30"] else []
       | _, _ => [])

def _calculate_pcos_risk (u : User) (starts : List ℤ) (symptoms : List Symptom) :
    RiskOut :=
  ⟨min (19/20) (1/10 + (corePcosIncrements u starts symptoms).sum),
    if 6 ≤ starts.length then 7/10 else 1/2,
    corePcosFactors u starts symptoms⟩

/- ## Definitions written from the words of the spec and the claims, to be
compared with the embedded code above. -/

/-- Modelled from the claim wording: 1.0 minus 0.3 if std above 7 (else 0.1 if
above 4), minus 0.4 times the fraction of gaps outside [21, 35], minus 0.2 if
max minus min exceeds 14, clamped to [0, 1]. -/
def claimedRegScore (lengths : List ℤ) (std : ℚ) : ℚ :=
  max 0 (min 1
    (1 - (if 7 < std then 3/10 else if 4 < std then 1/10 else 0)
       - 2/5 * (((lengths.filter fun l => decide (l < 21 ∨ 35 < l)).length : ℚ)
           / (lengths.length : ℚ))
       - (if 14 < maxOf lengths - minOf lengths then 1/5 else 0)))

/-- Modelled from the claim wording: the recency-weighted mean with weights
1..n, most recent weight n. -/
def claimedWeightedMean (ls : List ℤ) : ℚ :=
  (List.zipWith (fun (l : ℤ) (w : ℚ) => (l : ℚ) * w) ls (linWeights ls.length)).sum
    / (linWeights ls.length).sum

/-- Modelled from the claim wording: 0.6 times max(0, 1 - std/10) plus 0.4
times min(1, n/6). -/
def claimedConfidence (std : ℚ) (n : ℕ) : ℚ :=
  6/10 * max 0 (1 - std / 10) + 4/10 * min 1 ((n : ℚ) / 6)

/-- Modelled from the claim wording: the five ordered phase ranges, with the
luteal upper bound an integer cycle-length argument. -/
def claimedPhase5 (d len : ℤ) : String :=
  if 1 ≤ d ∧ d ≤ 5 then "menstrual"
  else if 5 < d ∧ d ≤ 13 then "follicular"
  else if 13 < d ∧ d ≤ 16 then "ovulation"
  else if 16 < d ∧ d ≤ len then "luteal"
  else "late_luteal"

/-- The four-range variant the two router sites actually implement: luteal is
unbounded above. -/
def claimedPhase4 (d : ℤ) : String :=
  if 1 ≤ d ∧ d ≤ 5 then "menstrual"
  else if 5 < d ∧ d ≤ 13 then "follicular"
  else if 13 < d ∧ d ≤ 16 then "ovulation"
  else "luteal"

/-- Modelled from the claim wording: the final score is the weighted average
of the accumulated pairs, defaulting to the 0.1 baseline when none triggered. -/
def claimedRiskScore (ev : List (ℚ × ℚ)) : ℚ :=
  if ev = [] then 1/10 else weightedAvg ev

/- ## Concrete inputs used by counterexamples and witnesses -/

def bcUser : User := ⟨none, none, true⟩

def plainUser : User := ⟨none, none, false⟩

/-- Profile with BMI 8000/289, about 27.7: above 25 and below 30. -/
def c7User : User := ⟨some 80, some 170, false⟩

/-- Profile with BMI 10000/289, about 34.6: above 30. -/
def coreUser : User := ⟨some 100, some 170, false⟩

def mkPain (sev : ℚ) : Symptom := ⟨"pain", "pain", sev⟩

/-- Ten pain symptoms, average severity 4.9. -/
def symsA : List Symptom := List.replicate 9 (mkPain 5) ++ [mkPain 4]

/-- The same ten pain symptoms with only the last severity raised 4 to 10,
average severity 5.5. -/
def symsB : List Symptom := List.replicate 9 (mkPain 5) ++ [mkPain 10]

def hormSym : Symptom := ⟨"acne", "hormonal", 5⟩

def coreSyms : List Symptom := List.replicate 3 hormSym

def mkCycle (s : ℤ) (len : Option ℤ) : CycleEntry := ⟨s, len, "medium"⟩

/-- Four logged cycles whose stored cached lengths are 28, 28, 100: the 100
day gap is the kind the [15, 60] filter exists to drop. -/
def c100 : List CycleEntry :=
  [mkCycle 0 (some 28), mkCycle 28 (some 28), mkCycle 56 (some 100), mkCycle 156 none]

def bcCycle : List CycleEntry := [mkCycle 0 none]

def coreStarts : List ℤ := [0, 40, 80]

/- ## Helper lemmas -/

lemma le_pyround (m : ℤ) (q : ℚ) (h : (m : ℚ) ≤ q) : m ≤ pyround q := by
  simp only [pyround]
  have hf : m ≤ ⌊q⌋ := Int.le_floor.mpr h
  split_ifs <;> omega

lemma pyround_le (M : ℤ) (q : ℚ) (h : q ≤ M) : pyround q ≤ M := by
  simp only [pyround]
  have hfM : ⌊q⌋ ≤ M := by
    have := Int.floor_le_floor h
    simpa using this
  have hfl : (⌊q⌋ : ℚ) ≤ q := Int.floor_le q
  have key : 0 < q - (⌊q⌋ : ℚ) → ⌊q⌋ + 1 ≤ M := by
    intro hr
    rcases lt_or_eq_of_le hfM with hlt | heq
    · omega
    · exfalso
      have hq : (⌊q⌋ : ℚ) < q := by linarith
      rw [heq] at hq
      linarith
  split_ifs with h1 h2 h3
  · exact hfM
  · exact key (by linarith)
  · exact hfM
  · have hr : (1:ℚ)/2 ≤ q - ⌊q⌋ := by linarith [not_lt.mp h1]
    exact key (by linarith)

lemma pyround2_bounds (m M : ℤ) (q : ℚ) (h1 : (m : ℚ)/100 ≤ q)
    (h2 : q ≤ (M : ℚ)/100) :
    (m : ℚ)/100 ≤ pyround2 q ∧ pyround2 q ≤ (M : ℚ)/100 := by
  have hm : (m : ℚ) ≤ 100 * q := by linarith
  have hM : 100 * q ≤ (M : ℚ) := by linarith
  have l1 : (m : ℚ) ≤ (pyround (100 * q) : ℚ) := by
    exact_mod_cast le_pyround m (100 * q) hm
  have l2 : ((pyround (100 * q) : ℤ) : ℚ) ≤ (M : ℚ) := by
    exact_mod_cast pyround_le M (100 * q) hM
  unfold pyround2
  constructor <;> linarith

lemma evidence_sums (ev : List (ℚ × ℚ)) (a b : ℚ)
    (hm : ∀ p ∈ ev, a ≤ p.1 ∧ p.1 ≤ b ∧ 0 < p.2) :
    a * (ev.map fun p => p.2).sum ≤ (ev.map fun p => p.1 * p.2).sum ∧
      (ev.map fun p => p.1 * p.2).sum ≤ b * (ev.map fun p => p.2).sum := by
  induction ev with
  | nil => simp
  | cons p t ih =>
    have hp := hm p (by simp)
    have ht : ∀ x ∈ t, a ≤ x.1 ∧ x.1 ≤ b ∧ 0 < x.2 := fun x hx => hm x (by simp [hx])
    obtain ⟨ih1, ih2⟩ := ih ht
    simp only [List.map_cons, List.sum_cons]
    constructor
    · have h1 : a * p.2 ≤ p.1 * p.2 := mul_le_mul_of_nonneg_right hp.1 hp.2.2.le
      rw [mul_add]
      exact add_le_add h1 ih1
    · have h2 : p.1 * p.2 ≤ b * p.2 := mul_le_mul_of_nonneg_right hp.2.1 hp.2.2.le
      rw [mul_add]
      exact add_le_add h2 ih2

lemma sumW_pos (ev : List (ℚ × ℚ)) (hne : ev ≠ [])
    (hm : ∀ p ∈ ev, 0 < p.2) : 0 < (ev.map fun p => p.2).sum := by
  cases ev with
  | nil => exact absurd rfl hne
  | cons p t =>
    simp only [List.map_cons, List.sum_cons]
    have h0 : 0 < p.2 := hm p (by simp)
    have ht : 0 ≤ (t.map fun p => p.2).sum := by
      apply List.sum_nonneg
      intro x hx
      simp only [List.mem_map] at hx
      obtain ⟨q, hq, rfl⟩ := hx
      exact (hm q (by simp [hq])).le
    linarith

lemma weightedAvg_bounds (ev : List (ℚ × ℚ)) (a b : ℚ) (hne : ev ≠ [])
    (hm : ∀ p ∈ ev, a ≤ p.1 ∧ p.1 ≤ b ∧ 0 < p.2) :
    a ≤ weightedAvg ev ∧ weightedAvg ev ≤ b := by
  have hW : 0 < (ev.map fun p => p.2).sum :=
    sumW_pos ev hne fun p hp => (hm p hp).2.2
  obtain ⟨h1, h2⟩ := evidence_sums ev a b hm
  unfold weightedAvg
  exact ⟨(le_div_iff₀ hW).mpr h1, (div_le_iff₀ hW).mpr h2⟩

lemma mkRisk_bounds (ev : List (ℚ × ℚ)) (conf : ℚ) (facts : List String)
    (hm : ∀ p ∈ ev, 1/10 ≤ p.1 ∧ p.1 ≤ 4/5 ∧ 0 < p.2)
    (hc1 : 1/5 ≤ conf) (hc2 : conf ≤ 9/10) :
    1/10 ≤ (mkRisk ev conf facts).score ∧ (mkRisk ev conf facts).score ≤ 19/20 ∧
      0 ≤ (mkRisk ev conf facts).confidence ∧ (mkRisk ev conf facts).confidence < 1 := by
  unfold mkRisk
  split_ifs with h
  · norm_num
  · simp only
    obtain ⟨hlo, hhi⟩ := weightedAvg_bounds ev (1/10) (4/5) h hm
    have hs := pyround2_bounds 10 80 (weightedAvg ev) (by push_cast; linarith)
      (by push_cast; linarith)
    have hcb := pyround2_bounds 20 90 conf (by push_cast; linarith)
      (by push_cast; linarith)
    push_cast at hs hcb
    exact ⟨by linarith [hs.1], by linarith [hs.2], by linarith [hcb.1], by linarith [hcb.2]⟩

lemma pcosCycleEv_mem (cycles : List CycleEntry) :
    ∀ p ∈ pcosCycleEv cycles, 1/10 ≤ p.1 ∧ p.1 ≤ 4/5 ∧ 0 < p.2 := by
  intro p hp
  simp only [pcosCycleEv, evIf] at hp
  split_ifs at hp <;>
    simp only [List.mem_append, List.mem_singleton, List.not_mem_nil,
      or_false, false_or, or_assoc] at hp <;>
    first
      | exact hp.elim
      | (rcases hp with rfl | rfl | rfl | rfl | rfl <;> norm_num)
      | (rcases hp with rfl | rfl | rfl | rfl <;> norm_num)
      | (rcases hp with rfl | rfl | rfl <;> norm_num)
      | (rcases hp with rfl | rfl <;> norm_num)
      | (obtain rfl := hp; norm_num)

lemma pcosHormEv_mem (symptoms : List Symptom) :
    ∀ p ∈ pcosHormEv symptoms, 1/10 ≤ p.1 ∧ p.1 ≤ 4/5 ∧ 0 < p.2 := by
  intro p hp
  simp only [pcosHormEv, evIf] at hp
  split_ifs at hp <;>
    simp only [List.mem_append, List.mem_singleton, List.not_mem_nil,
      or_false, false_or, or_assoc] at hp <;>
    first
      | exact hp.elim
      | (rcases hp with rfl | rfl | rfl | rfl | rfl <;> norm_num)
      | (rcases hp with rfl | rfl | rfl | rfl <;> norm_num)
      | (rcases hp with rfl | rfl | rfl <;> norm_num)
      | (rcases hp with rfl | rfl <;> norm_num)
      | (obtain rfl := hp; norm_num)

lemma pcosBmiEv_mem (u : User) :
    ∀ p ∈ pcosBmiEv u, 1/10 ≤ p.1 ∧ p.1 ≤ 4/5 ∧ 0 < p.2 := by
  intro p hp
  obtain ⟨w, h, bc⟩ := u
  cases w <;> cases h <;>
    simp only [pcosBmiEv, List.not_mem_nil] at hp
  split_ifs at hp <;>
    simp only [List.mem_singleton, List.not_mem_nil] at hp <;>
    first
      | exact hp.elim
      | (obtain rfl := hp; norm_num)

lemma pcosEvidence_mem (u : User) (cycles : List CycleEntry)
    (symptoms : List Symptom) :
    ∀ p ∈ pcosEvidence u cycles symptoms, 1/10 ≤ p.1 ∧ p.1 ≤ 4/5 ∧ 0 < p.2 := by
  intro p hp
  rcases List.mem_append.mp hp with hp' | hp'
  · rcases List.mem_append.mp hp' with h2 | h2
    · exact pcosCycleEv_mem cycles p h2
    · exact pcosHormEv_mem symptoms p h2
  · exact pcosBmiEv_mem u p hp'

lemma endoEvidence_mem (symptoms : List Symptom) (cycles : List CycleEntry) :
    ∀ p ∈ endoEvidence symptoms cycles, 1/10 ≤ p.1 ∧ p.1 ≤ 4/5 ∧ 0 < p.2 := by
  intro p hp
  simp only [endoEvidence, endoSevEv, evIf] at hp
  split_ifs at hp <;>
    simp only [List.mem_append, List.mem_singleton, List.not_mem_nil,
      or_false, false_or, or_assoc] at hp <;>
    first
      | exact hp.elim
      | (rcases hp with rfl | rfl | rfl | rfl | rfl <;> norm_num)
      | (rcases hp with rfl | rfl | rfl | rfl <;> norm_num)
      | (rcases hp with rfl | rfl | rfl <;> norm_num)
      | (rcases hp with rfl | rfl <;> norm_num)
      | (obtain rfl := hp; norm_num)

lemma anemiaEvidence_mem (symptoms : List Symptom) (cycles : List CycleEntry) :
    ∀ p ∈ anemiaEvidence symptoms cycles, 1/10 ≤ p.1 ∧ p.1 ≤ 4/5 ∧ 0 < p.2 := by
  intro p hp
  simp only [anemiaEvidence, anemiaHeavyEv, anemiaFatigueEv, evIf] at hp
  split_ifs at hp <;>
    simp only [List.mem_append, List.mem_singleton, List.not_mem_nil,
      or_false, false_or, or_assoc] at hp <;>
    first
      | exact hp.elim
      | (rcases hp with rfl | rfl | rfl | rfl | rfl <;> norm_num)
      | (rcases hp with rfl | rfl | rfl | rfl <;> norm_num)
      | (rcases hp with rfl | rfl | rfl <;> norm_num)
      | (rcases hp with rfl | rfl <;> norm_num)
      | (obtain rfl := hp; norm_num)

lemma thyroidEvidence_mem (symptoms : List Symptom) (cycles : List CycleEntry) :
    ∀ p ∈ thyroidEvidence symptoms cycles, 1/10 ≤ p.1 ∧ p.1 ≤ 4/5 ∧ 0 < p.2 := by
  intro p hp
  simp only [thyroidEvidence, thyroidCycleEv, evIf] at hp
  split_ifs at hp <;>
    simp only [List.mem_append, List.mem_singleton, List.not_mem_nil,
      or_false, false_or, or_assoc] at hp <;>
    first
      | exact hp.elim
      | (rcases hp with rfl | rfl | rfl | rfl | rfl <;> norm_num)
      | (rcases hp with rfl | rfl | rfl | rfl <;> norm_num)
      | (rcases hp with rfl | rfl | rfl <;> norm_num)
      | (rcases hp with rfl | rfl <;> norm_num)
      | (obtain rfl := hp; norm_num)

lemma list_sum_map_div (l : List ℚ) (c : ℚ) :
    (l.map fun x => x / c).sum = l.sum / c := by
  induction l with
  | nil => simp
  | cons a t ih => simp [ih, add_div]

lemma zipWith_mul_div (ls : List ℤ) (ws : List ℚ) (c : ℚ) :
    (List.zipWith (fun (l : ℤ) (w : ℚ) => (l : ℚ) * (w / c)) ls ws).sum
      = (List.zipWith (fun (l : ℤ) (w : ℚ) => (l : ℚ) * w) ls ws).sum / c := by
  induction ls generalizing ws with
  | nil => simp
  | cons a t ih =>
    cases ws with
    | nil => simp
    | cons b r =>
      simp only [List.zipWith_cons_cons, List.sum_cons]
      rw [ih r, add_div, mul_div_assoc]

lemma linWeights_length (n : ℕ) : (linWeights n).length = n := by
  rw [linWeights, List.length_map, List.length_range]

lemma linWeights_ne_nil (n : ℕ) (h : n ≠ 0) : linWeights n ≠ [] := by
  intro hc
  apply h
  have hlen := linWeights_length n
  rw [hc] at hlen
  simpa using hlen.symm

lemma linWeights_sum_pos (n : ℕ) (h : n ≠ 0) : 0 < (linWeights n).sum := by
  apply List.sum_pos
  · intro x hx
    rw [linWeights] at hx
    obtain ⟨i, hi, rfl⟩ := List.mem_map.mp hx
    have hi0 : (0:ℚ) ≤ (i : ℚ) := Nat.cast_nonneg i
    linarith
  · exact linWeights_ne_nil n h

lemma wavgCode_eq_claimed (ls : List ℤ) (h : ls ≠ []) :
    wavgCode ls = claimedWeightedMean ls := by
  have hn : ls.length ≠ 0 := fun hc => h (List.length_eq_zero.mp hc)
  have hW : 0 < (linWeights ls.length).sum := linWeights_sum_pos _ hn
  simp only [wavgCode, claimedWeightedMean]
  rw [List.zipWith_map_right, zipWith_mul_div, list_sum_map_div,
    div_self (ne_of_gt hW), div_one]

lemma sum_le_sum_set (xs : List ℚ) (i : ℕ) (v : ℚ) (h : i < xs.length)
    (hle : xs.get ⟨i, h⟩ ≤ v) : xs.sum ≤ (xs.set i v).sum := by
  induction xs generalizing i with
  | nil => simp at h
  | cons a t ih =>
    cases i with
    | zero =>
      simp only [List.get] at hle
      simp only [List.set, List.sum_cons]
      linarith
    | succ n =>
      simp only [List.get] at hle
      simp only [List.set, List.sum_cons]
      have hn : n < t.length := by
        simp only [List.length_cons] at h
        omega
      have := ih n hn hle
      linarith

lemma qmean_le_qmean_set (xs : List ℚ) (i : ℕ) (v : ℚ) (h : i < xs.length)
    (hle : xs.get ⟨i, h⟩ ≤ v) : qmean xs ≤ qmean (xs.set i v) := by
  unfold qmean
  rw [List.length_set]
  have hlen : 0 < (xs.length : ℚ) := by
    have h0 : 0 < xs.length := lt_of_le_of_lt (Nat.zero_le i) h
    exact_mod_cast h0
  exact (div_le_div_iff_of_pos_right hlen).mpr (sum_le_sum_set xs i v h hle)

lemma foldl_max_le (b : ℤ) : ∀ (r : List ℤ) (a : ℤ), a ≤ b → (∀ x ∈ r, x ≤ b) →
    r.foldl max a ≤ b := by
  intro r
  induction r with
  | nil =>
    intro a ha _
    simpa using ha
  | cons x t ih =>
    intro a ha hr
    simp only [List.foldl_cons]
    exact ih (max a x) (max_le ha (hr x (by simp))) fun y hy => hr y (by simp [hy])

lemma maxOf_le (l : List ℤ) (b : ℤ) (hne : l ≠ []) (hb : ∀ x ∈ l, x ≤ b) :
    maxOf l ≤ b := by
  cases l with
  | nil => exact absurd rfl hne
  | cons a r =>
    exact foldl_max_le b r a (hb a (by simp)) fun x hx => hb x (by simp [hx])

lemma le_foldl_min (b : ℤ) : ∀ (r : List ℤ) (a : ℤ), b ≤ a → (∀ x ∈ r, b ≤ x) →
    b ≤ r.foldl min a := by
  intro r
  induction r with
  | nil =>
    intro a ha _
    simpa using ha
  | cons x t ih =>
    intro a ha hr
    simp only [List.foldl_cons]
    exact ih (min a x) (le_min ha (hr x (by simp))) fun y hy => hr y (by simp [hy])

lemma le_minOf (l : List ℤ) (b : ℤ) (hne : l ≠ []) (hb : ∀ x ∈ l, b ≤ x) :
    b ≤ minOf l := by
  cases l with
  | nil => exact absurd rfl hne
  | cons a r =>
    exact le_foldl_min b r a (hb a (by simp)) fun x hx => hb x (by simp [hx])

/- ## Claim theorems -/

/-- Claim C1: for every profile, cycle list and symptom list, each of the four
condition scorers (PCOS, endometriosis, anemia, thyroid) returns a risk score
inside [0.1, 0.95] and a confidence inside [0, 1] that is strictly below 1; in
particular no input drives any score above 0.95. -/
theorem C1_risk_bounds (u : User) (cycles : List CycleEntry)
    (symptoms : List Symptom) :
    (1/10 ≤ (calculate_pcos_risk u cycles symptoms).score ∧
      (calculate_pcos_risk u cycles symptoms).score ≤ 19/20 ∧
      0 ≤ (calculate_pcos_risk u cycles symptoms).confidence ∧
      (calculate_pcos_risk u cycles symptoms).confidence < 1) ∧
    (1/10 ≤ (calculate_endometriosis_risk symptoms cycles).score ∧
      (calculate_endometriosis_risk symptoms cycles).score ≤ 19/20 ∧
      0 ≤ (calculate_endometriosis_risk symptoms cycles).confidence ∧
      (calculate_endometriosis_risk symptoms cycles).confidence < 1) ∧
    (1/10 ≤ (calculate_anemia_risk symptoms cycles).score ∧
      (calculate_anemia_risk symptoms cycles).score ≤ 19/20 ∧
      0 ≤ (calculate_anemia_risk symptoms cycles).confidence ∧
      (calculate_anemia_risk symptoms cycles).confidence < 1) ∧
    (1/10 ≤ (calculate_thyroid_risk u symptoms cycles).score ∧
      (calculate_thyroid_risk u symptoms cycles).score ≤ 19/20 ∧
      0 ≤ (calculate_thyroid_risk u symptoms cycles).confidence ∧
      (calculate_thyroid_risk u symptoms cycles).confidence < 1) := by
  simp only [calculate_pcos_risk, calculate_endometriosis_risk,
    calculate_anemia_risk, calculate_thyroid_risk]
  refine ⟨?_, ?_, ?_, ?_⟩
  · refine mkRisk_bounds _ _ _ (pcosEvidence_mem u cycles symptoms) ?_ ?_
    · refine le_min (by norm_num) ?_
      have h0 : (0:ℚ) ≤ ((cycles.length + symptoms.length : ℕ) : ℚ) / 50 := by
        positivity
      linarith
    · exact min_le_left _ _
  · refine mkRisk_bounds _ _ _ (endoEvidence_mem symptoms cycles) ?_ ?_
    · refine le_min (by norm_num) ?_
      have h0 : (0:ℚ) ≤ (symptoms.length : ℚ) / 40 := by positivity
      linarith
    · exact (min_le_left _ _).trans (by norm_num)
  · refine mkRisk_bounds _ _ _ (anemiaEvidence_mem symptoms cycles) ?_ ?_
    · refine le_min (by norm_num) ?_
      have h0 : (0:ℚ) ≤ (symptoms.length : ℚ) / 40 := by positivity
      linarith
    · exact (min_le_left _ _).trans (by norm_num)
  · refine mkRisk_bounds _ _ _ (thyroidEvidence_mem symptoms cycles) ?_ ?_
    · refine le_min (by norm_num) ?_
      have h0 : (0:ℚ) ≤ (symptoms.length : ℚ) / 50 := by positivity
      linarith
    · exact (min_le_left _ _).trans (by norm_num)

/-- Claim C7 (the code violates the factor contract): a profile with weight 80
kg and height 170 cm (BMI about 27.7, in the untracked 25 to 30 band) and no
cycles or symptoms makes the PCOS scorer accumulate the evidence pair
(0.3, 1) without any factor record, so it returns score 0.3, strictly above
the 0.1 baseline, with an empty factors list. -/
theorem C7_missing_factor :
    calculate_pcos_risk c7User [] [] = ⟨3/10, 3/10, []⟩ ∧ (1:ℚ)/10 < 3/10 := by
  constructor
  · have hev : pcosEvidence c7User [] [] = [(3/10, 1)] := by
      norm_num [pcosEvidence, pcosCycleEv, pcosHormEv, pcosBmiEv, c7User,
        bmiOf, evIf, storedLengths]
    have hf : pcosFactors c7User [] [] = [] := by
      norm_num [pcosFactors, c7User, bmiOf, factIf, storedLengths]
    simp only [calculate_pcos_risk, hev, hf]
    norm_num [mkRisk, weightedAvg, pyround2, pyround, min_def]
  · norm_num

/-- Claim C9 counterexample: the agent-core PCOS scorer is additive, not a
weighted average.  With three cycles 40 days apart, three hormonal symptoms
and BMI about 34.6, it accumulates the evidence increments 0.25, 0.2 and 0.15
and returns 0.1 + their sum = 0.7.  Every accumulated evidence value is at
most 0.25, and any weighted average with positive weights of values at most
0.25 is itself at most 0.25 (weightedAvg_bounds), so 0.7 is not a weighted
average of the accumulated evidence; with equal weights the average would be
0.2. -/
theorem C9_counterexample :
    (_calculate_pcos_risk coreUser coreStarts coreSyms).score = 7/10
    ∧ corePcosIncrements coreUser coreStarts coreSyms = [1/4, 1/5, 3/20]
    ∧ (7:ℚ)/10 = 1/10 + (1/4 + 1/5 + 3/20)
    ∧ ¬ ((7:ℚ)/10 ≤ 1/4)
    ∧ weightedAvg [((1:ℚ)/4, 1), (1/5, 1), (3/20, 1)] = 1/5
    ∧ ((1:ℚ)/5 ≠ 7/10) := by
  have hsort : _calculate_cycle_lengths (sortDates [0, 40, 80]) = [40, 40] := by
    decide
  have hf : (coreSyms.filter fun s => inCategory s "hormonal") = coreSyms := by
    decide
  have hlen : coreSyms.length = 3 := by decide
  have h35 : (35:ℚ) < zmean [40, 40] := by norm_num [zmean, qmean]
  have h49 : ¬ ((49:ℚ) < popVar [40, 40]) := by norm_num [popVar, zmean, qmean]
  have hne : ¬ (([40, 40] : List ℤ) = []) := by decide
  have hinc : corePcosIncrements coreUser coreStarts coreSyms = [1/4, 1/5, 3/20] := by
    norm_num [corePcosIncrements, hsort, hf, hlen, coreStarts, coreUser, bmiOf,
      h35, h49, hne]
  refine ⟨?_, hinc, by norm_num, by norm_num, ?_, by norm_num⟩
  · norm_num [_calculate_pcos_risk, hinc, min_def]
  · norm_num [weightedAvg]

/-- Claim C9 amended: the four insights.py scorers return the two-decimal
rounding of the weighted average of their accumulated (evidence, weight)
pairs, defaulting to the 0.1 baseline when no rule triggers; the agent-core
PCOS scorer instead adds fixed increments to the 0.1 baseline and caps the
sum at 0.95. -/
theorem C9_amended (u : User) (cycles : List CycleEntry) (symptoms : List Symptom)
    (starts : List ℤ) :
    (calculate_pcos_risk u cycles symptoms).score
        = pyround2 (claimedRiskScore (pcosEvidence u cycles symptoms))
    ∧ (calculate_endometriosis_risk symptoms cycles).score
        = pyround2 (claimedRiskScore (endoEvidence symptoms cycles))
    ∧ (calculate_anemia_risk symptoms cycles).score
        = pyround2 (claimedRiskScore (anemiaEvidence symptoms cycles))
    ∧ (calculate_thyroid_risk u symptoms cycles).score
        = pyround2 (claimedRiskScore (thyroidEvidence symptoms cycles))
    ∧ (_calculate_pcos_risk u starts symptoms).score
        = min (19/20) (1/10 + (corePcosIncrements u starts symptoms).sum) := by
  refine ⟨?_, ?_, ?_, ?_, rfl⟩ <;>
    · simp only [calculate_pcos_risk, calculate_endometriosis_risk,
        calculate_anemia_risk, calculate_thyroid_risk, mkRisk, claimedRiskScore]
      split_ifs <;> first
        | rfl
        | norm_num [pyround2, pyround]

/-- Claim C8 amended: the gap list every start-date walk derives (the analyzer
tool, the router predictor and the agent core all run the identical loop
_calculate_cycle_lengths) holds exactly the adjacent differences inside
[15, 60] days.  The risk scorers and the patterns, current and prediction
endpoints, however, draw their statistics from the stored cycle_length
column, which is cached without this filter (see the C8 counterexample). -/
theorem C8_amended : ∀ l : List ℤ,
    _calculate_cycle_lengths l
      = (adjDiffs l).filter fun d => decide (15 ≤ d ∧ d ≤ 60) := by
  intro l
  induction l with
  | nil => rfl
  | cons a t ih =>
    cases t with
    | nil => rfl
    | cons b r =>
      simp only [_calculate_cycle_lengths, adjDiffs, List.filter_cons,
        decide_eq_true_eq]
      rw [ih]
      split_ifs
      · rfl
      · rfl

/-- Claim C8 counterexample: four cycles starting at days 0, 28, 56, 156 carry
stored cached lengths 28, 28 and 100.  The filtered gap list is [28, 28] with
mean 28, but the PCOS scorer computes its statistics over the stored list
including the 100-day gap: it sees mean 52, triggers the long-cycle (0.8) and
irregularity (0.7) evidence and returns 0.76, even though the filtered mean
28 clears neither the 35 nor the 32 threshold.  A gap outside [15, 60] does
influence the statistics the scorer uses. -/
theorem C8_counterexample :
    _calculate_cycle_lengths [0, 28, 56, 156] = [28, 28]
    ∧ storedLengths c100 = [28, 28, 100]
    ∧ zmean (storedLengths c100) = 52
    ∧ zmean (_calculate_cycle_lengths [0, 28, 56, 156]) = 28
    ∧ pcosEvidence plainUser c100 [] = [(4/5, 3), (7/10, 2)]
    ∧ (calculate_pcos_risk plainUser c100 []).score = 19/25
    ∧ ((52:ℚ) ≠ 28) ∧ ¬ ((32:ℚ) < 28) := by
  have hst : storedLengths c100 = [28, 28, 100] := by decide
  have hcl : _calculate_cycle_lengths [0, 28, 56, 156] = [28, 28] := by decide
  have hln : c100.length = 4 := by decide
  have h35 : (35:ℚ) < zmean [28, 28, 100] := by norm_num [zmean, qmean]
  have h49 : (49:ℚ) < popVar [28, 28, 100] := by norm_num [popVar, zmean, qmean]
  have hne : ¬ (([28, 28, 100] : List ℤ) = []) := by decide
  have hev : pcosEvidence plainUser c100 [] = [(4/5, 3), (7/10, 2)] := by
    norm_num [pcosEvidence, pcosCycleEv, pcosHormEv, pcosBmiEv, hst, hln,
      plainUser, evIf, h35, h49, hne]
  have hne2 : ¬ (([((4:ℚ)/5, (3:ℚ)), (7/10, 2)] : List (ℚ × ℚ)) = []) := by decide
  refine ⟨hcl, hst, ?_, ?_, hev, ?_, by norm_num, by norm_num⟩
  · rw [hst]; norm_num [zmean, qmean]
  · rw [hcl]; norm_num [zmean, qmean]
  · simp only [calculate_pcos_risk, hev, mkRisk, if_neg hne2]
    norm_num [weightedAvg, pyround2, pyround]

/-- Claim C3 counterexample: raising the severity of one pain symptom from 4
to 10 (all other inputs fixed) drops the endometriosis score from 0.70 to
0.58.  With ten pain symptoms of average severity 4.9 only the frequency
evidence (0.7, weight 2) triggers; the raise moves the average to 5.5, newly
triggering the moderate-pain evidence (0.5, weight 3), which dilutes the
weighted average down to 0.58. -/
theorem C3_counterexample :
    symsA = List.replicate 9 (mkPain 5) ++ [mkPain 4]
    ∧ symsB = List.replicate 9 (mkPain 5) ++ [mkPain 10]
    ∧ ((4:ℚ) < 10)
    ∧ (calculate_endometriosis_risk symsA []).score = 7/10
    ∧ (calculate_endometriosis_risk symsB []).score = 29/50
    ∧ ((29:ℚ)/50 < 7/10) := by
  have hpA : painSyms symsA = symsA := by decide
  have hpB : painSyms symsB = symsB := by decide
  have hkA : kwSyms symsA "fatigue" = [] := by decide
  have hkB : kwSyms symsB "fatigue" = [] := by decide
  have hlA : symsA.length = 10 := by decide
  have hlB : symsB.length = 10 := by decide
  have hmA : qmean (severities symsA) = 49/10 := by
    norm_num [symsA, severities, qmean, mkPain, List.replicate]
  have hmB : qmean (severities symsB) = 11/2 := by
    norm_num [symsB, severities, qmean, mkPain, List.replicate]
  have hAne : ¬ (symsA = []) := by decide
  have hBne : ¬ (symsB = []) := by decide
  have hevA : endoEvidence symsA [] = [(7/10, 2)] := by
    norm_num [endoEvidence, hpA, hkA, hlA, hmA, hAne, endoSevEv, evIf, heavyCycles]
  have hevB : endoEvidence symsB [] = [(1/2, 3), (7/10, 2)] := by
    norm_num [endoEvidence, hpB, hkB, hlB, hmB, hBne, endoSevEv, evIf, heavyCycles]
  have hne1 : ¬ (([((7:ℚ)/10, (2:ℚ))] : List (ℚ × ℚ)) = []) := by decide
  have hne2 : ¬ (([((1:ℚ)/2, (3:ℚ)), (7/10, 2)] : List (ℚ × ℚ)) = []) := by decide
  refine ⟨rfl, rfl, by norm_num, ?_, ?_, by norm_num⟩
  · simp only [calculate_endometriosis_risk, hevA, mkRisk, if_neg hne1]
    norm_num [weightedAvg, pyround2, pyround]
  · simp only [calculate_endometriosis_risk, hevB, mkRisk, if_neg hne2]
    norm_num [weightedAvg, pyround2, pyround]

/-- Claim C3 amended: raising the severity of a matching symptom never lowers
the average severity, and the evidence tier the severity rule selects
(0, 0.5, 0.8 for endometriosis pain; 0, 0.6 for anemia fatigue) is monotone
in that average, with the scorers drawing exactly the tier-valued evidence
pair; the final weighted-average score, however, can strictly decrease when a
newly triggered middle tier dilutes higher-valued evidence (see the C3
counterexample). -/
theorem C3_amended :
    (∀ a b : ℚ, a ≤ b → endoPainTier a ≤ endoPainTier b ∧
        anemiaFatigueTier a ≤ anemiaFatigueTier b)
    ∧ (∀ (xs : List ℚ) (i : ℕ) (v : ℚ) (h : i < xs.length), xs.get ⟨i, h⟩ ≤ v →
        endoPainTier (qmean xs) ≤ endoPainTier (qmean (xs.set i v)) ∧
          anemiaFatigueTier (qmean xs) ≤ anemiaFatigueTier (qmean (xs.set i v)))
    ∧ (∀ a : ℚ, endoSevEv a
        = if endoPainTier a = 0 then [] else [(endoPainTier a, 3)])
    ∧ (∀ a : ℚ, anemiaFatigueEv a
        = if anemiaFatigueTier a = 0 then [] else [(anemiaFatigueTier a, 2)]) := by
  have tiermono : ∀ a b : ℚ, a ≤ b → endoPainTier a ≤ endoPainTier b ∧
      anemiaFatigueTier a ≤ anemiaFatigueTier b := by
    intro a b hab
    constructor <;>
      · simp only [endoPainTier, anemiaFatigueTier]
        split_ifs <;> linarith
  refine ⟨tiermono, ?_, ?_, ?_⟩
  · intro xs i v h hle
    exact tiermono _ _ (qmean_le_qmean_set xs i v h hle)
  · intro a
    simp only [endoSevEv, endoPainTier]
    split_ifs <;> simp_all
  · intro a
    simp only [anemiaFatigueEv, anemiaFatigueTier]
    split_ifs <;> simp_all

/-- Claim C3 amended, witness at average severities 4 and 6. -/
theorem C3_amended_witness :
    ((4:ℚ) ≤ 6) ∧ endoPainTier 4 ≤ endoPainTier 6 ∧
      anemiaFatigueTier 4 ≤ anemiaFatigueTier 6 :=
  ⟨by norm_num, (C3_amended.1 4 6 (by norm_num)).1, (C3_amended.1 4 6 (by norm_num)).2⟩

/-- Claim C10 counterexample: the next-cycle predictor is not independent of
the clock on the no-history fallback.  With an empty cycle list it returns
today + 28, so the same (empty) input queried on day 0 and on day 1 yields
two different predicted dates. -/
theorem C10_counterexample :
    predict_next_cycle [] 0 0 = (28, 1/10)
    ∧ predict_next_cycle [] 0 1 = (29, 1/10)
    ∧ ((28:ℤ), (1:ℚ)/10) ≠ ((29:ℤ), (1:ℚ)/10) := by
  refine ⟨by norm_num [predict_next_cycle], by norm_num [predict_next_cycle], ?_⟩
  intro hEq
  exact absurd (congrArg Prod.fst hEq) (by norm_num)

/-- Claim C10 amended: the risk scorers and the predictor are pure functions
of their arguments, and with at least one logged cycle the predictor output
does not depend on the query date at all; only the empty-history fallback
reads the clock, returning today + 28 with confidence 0.1. -/
theorem C10_amended :
    (∀ (std : ℚ) (t : ℤ), predict_next_cycle [] std t = (t + 28, 1/10))
    ∧ (∀ (starts : List ℤ) (std : ℚ) (t t' : ℤ), starts ≠ [] →
        predict_next_cycle starts std t = predict_next_cycle starts std t') := by
  constructor
  · intro std t
    norm_num [predict_next_cycle]
  · intro starts std t t' h
    cases starts with
    | nil => exact absurd rfl h
    | cons a l =>
      by_cases hc : (a :: l).length < 2
      · simp [predict_next_cycle, hc]
      · simp [predict_next_cycle, hc]

/-- Claim C10 amended, witness: one logged cycle queried on day 5 and day 9. -/
theorem C10_amended_witness :
    (([0] : List ℤ) ≠ []) ∧
      predict_next_cycle [0] 0 5 = predict_next_cycle [0] 0 9 :=
  ⟨by decide, C10_amended.2 [0] 0 5 9 (by decide)⟩

/-- Claim C4 counterexample: the /patterns endpoint does not implement the
claimed deduction formula.  On gaps [21, 35, 35, 21] the population std is
exactly 7 (variance 49); the claimed formula gives 1 - 0.1 = 0.9 and, since
0.9 is at least 0.7 and std is at most 7, a regular verdict; the patterns
endpoint instead returns the clamped inverse coefficient of variation
1 - 7/28 = 0.75 and judges the series irregular because it requires std
strictly below 7. -/
theorem C4_counterexample :
    IsPopStd [21, 35, 35, 21] 7
    ∧ (patterns_regularity [21, 35, 35, 21] 7).1 = 3/4
    ∧ claimedRegScore [21, 35, 35, 21] 7 = 9/10
    ∧ ((3:ℚ)/4 ≠ 9/10)
    ∧ (patterns_regularity [21, 35, 35, 21] 7).2 = false
    ∧ ((7:ℚ)/10 ≤ 3/4) ∧ ((7:ℚ) ≤ 7) := by
  refine ⟨⟨by norm_num, by norm_num [popVar, zmean, qmean]⟩, ?_, ?_,
    by norm_num, ?_, by norm_num, by norm_num⟩
  · norm_num [patterns_regularity, zmean, qmean, pyround2, pyround,
      min_def, max_def]
  · have hfil : (([21, 35, 35, 21] : List ℤ).filter
        fun l => decide (l < 21 ∨ 35 < l)) = [] := by decide
    have hmax : maxOf ([21, 35, 35, 21] : List ℤ) = 35 := by decide
    have hmin : minOf ([21, 35, 35, 21] : List ℤ) = 21 := by decide
    norm_num [claimedRegScore, hfil, hmax, hmin, min_def, max_def]
  · simp only [patterns_regularity]
    norm_num [decide_eq_false_iff_not]

/-- Claim C4 amended: the analyzer regularity classifier does satisfy the
claimed formula: the returned score is the two-decimal rounding of the
clamped deduction score, is_regular tests the unrounded clamped score against
0.7 together with std at most 7, and a list with std 0 whose gaps all lie in
[21, 35] scores 1.0 and is regular.  The /patterns endpoint computes a
different score and a different is_regular (see the C4 counterexample). -/
theorem C4_amended :
    (∀ (lengths : List ℤ) (std : ℚ), lengths ≠ [] →
      assess_regularity lengths std
        = ⟨pyround2 (claimedRegScore lengths std),
            decide (7/10 ≤ claimedRegScore lengths std ∧ std ≤ 7)⟩)
    ∧ (∀ lengths : List ℤ, lengths ≠ [] → (∀ l ∈ lengths, 21 ≤ l ∧ l ≤ 35) →
        assess_regularity lengths 0 = ⟨1, true⟩) := by
  have hscore : ∀ (lengths : List ℤ) (std : ℚ), lengths ≠ [] →
      assessScore lengths std = claimedRegScore lengths std := by
    intro lengths std h
    simp only [assessScore, claimedRegScore, if_neg h]
    rcases eq_or_ne (lengths.filter fun l => decide (l < 21 ∨ 35 < l)) []
      with hout | hout
    · rw [if_pos hout, hout]
      by_cases hspan : 14 < maxOf lengths - minOf lengths
      · simp only [if_pos hspan, List.length_nil]
        push_cast
        ring_nf
      · simp only [if_neg hspan, List.length_nil]
        push_cast
        ring_nf
    · rw [if_neg hout]
      by_cases hspan : 14 < maxOf lengths - minOf lengths
      · simp only [if_pos hspan]
        ring_nf
      · simp only [if_neg hspan]
        ring_nf
  constructor
  · intro lengths std h
    rw [assess_regularity, hscore lengths std h]
  · intro lengths h hin
    have hout : (lengths.filter fun l => decide (l < 21 ∨ 35 < l)) = [] := by
      apply List.filter_eq_nil.mpr
      intro a ha
      simp only [decide_eq_true_eq]
      push_neg
      obtain ⟨h1, h2⟩ := hin a ha
      omega
    have hspan : ¬ (14 < maxOf lengths - minOf lengths) := by
      have hmax : maxOf lengths ≤ 35 := maxOf_le lengths 35 h fun x hx => (hin x hx).2
      have hmin : 21 ≤ minOf lengths := le_minOf lengths 21 h fun x hx => (hin x hx).1
      omega
    have h1 : assessScore lengths 0 = 1 := by
      simp only [assessScore, if_neg h, if_pos hout, if_neg hspan]
      norm_num [min_def, max_def]
    simp only [assess_regularity, h1]
    norm_num [pyround2, pyround, decide_eq_true_eq]

/-- Claim C4 amended, witness: gaps [28, 29] with std 1, and gaps [28, 28]
with std 0 inside [21, 35]. -/
theorem C4_amended_witness :
    (([28, 29] : List ℤ) ≠ []) ∧ (([28, 28] : List ℤ) ≠ [])
    ∧ (∀ l ∈ ([28, 28] : List ℤ), 21 ≤ l ∧ l ≤ 35)
    ∧ assess_regularity [28, 29] 1
        = ⟨pyround2 (claimedRegScore [28, 29] 1),
            decide (7/10 ≤ claimedRegScore [28, 29] 1 ∧ (1:ℚ) ≤ 7)⟩
    ∧ assess_regularity [28, 28] 0 = ⟨1, true⟩ :=
  ⟨by decide, by decide, by decide,
    C4_amended.1 [28, 29] 1 (by decide),
    C4_amended.2 [28, 28] (by decide) (by decide)⟩

/-- Claim C5 counterexample: the predictor confidence is returned rounded to
two decimals, not equal to the exact formula.  With the single gap 28 (std 0,
n = 1) the claimed formula gives 0.6 + 0.4/6 = 2/3, but the code returns
round(2/3, 2) = 0.67. -/
theorem C5_counterexample :
    IsPopStd [28] 0
    ∧ (_predict_next_cycle 0 [28] 0).confidence = 67/100
    ∧ claimedConfidence 0 1 = 2/3
    ∧ ((67:ℚ)/100 ≠ 2/3) := by
  refine ⟨⟨le_refl 0, by norm_num [popVar, zmean, qmean]⟩, ?_,
    by norm_num [claimedConfidence, max_def, min_def], by norm_num⟩
  have hne : (([28] : List ℤ) ≠ []) := by decide
  simp only [_predict_next_cycle, if_neg hne]
  norm_num [max_def, min_def, pyround2, pyround]

/-- Claim C5 amended: with an empty filtered gap list the analyzer predictor
returns last start + 28 with confidence 0.3 (range plus or minus 5), and the
router predictor returns today + 28 with confidence 0.1 when no cycle exists
at all (and first start + 28 with 0.3 for a single cycle); otherwise the
predicted date is last start plus the rounded recency-weighted mean (weights
1..n), the confidence is the claimed formula rounded to two decimals, and the
range is the prediction plus or minus max(2, round(std)). -/
theorem C5_amended :
    (∀ (lastStart : ℤ) (std : ℚ),
        _predict_next_cycle lastStart [] std
          = ⟨lastStart + 28, 3/10, lastStart + 28 - 5, lastStart + 28 + 5⟩)
    ∧ (∀ (lastStart : ℤ) (lengths : List ℤ) (std : ℚ), lengths ≠ [] →
        _predict_next_cycle lastStart lengths std
          = ⟨lastStart + pyround (claimedWeightedMean lengths),
              pyround2 (claimedConfidence std lengths.length),
              lastStart + pyround (claimedWeightedMean lengths)
                - max 2 (pyround std),
              lastStart + pyround (claimedWeightedMean lengths)
                + max 2 (pyround std)⟩)
    ∧ (∀ (std : ℚ) (today : ℤ), predict_next_cycle [] std today = (today + 28, 1/10))
    ∧ (∀ (s : ℤ) (std : ℚ) (today : ℤ),
        predict_next_cycle [s] std today = (s + 28, 3/10)) := by
  refine ⟨?_, ?_, ?_, ?_⟩
  · intro lastStart std
    simp [_predict_next_cycle]
  · intro lastStart lengths std h
    have hc : (max 0 (1 - std / 10)) * (6/10)
          + (min 1 ((lengths.length : ℚ) / 6)) * (4/10)
        = claimedConfidence std lengths.length := by
      simp only [claimedConfidence]
      ring
    simp only [_predict_next_cycle, if_neg h, wavgCode_eq_claimed lengths h, hc]
  · intro std t
    norm_num [predict_next_cycle]
  · intro s std t
    norm_num [predict_next_cycle]

/-- Claim C5 amended, witness: gaps [28, 29] with the exact std 1/2, plus the
two router fallbacks. -/
theorem C5_amended_witness :
    (([28, 29] : List ℤ) ≠ [])
    ∧ _predict_next_cycle 7 [] 0 = ⟨7 + 28, 3/10, 7 + 28 - 5, 7 + 28 + 5⟩
    ∧ _predict_next_cycle 7 [28, 29] (1/2)
        = ⟨7 + pyround (claimedWeightedMean [28, 29]),
            pyround2 (claimedConfidence (1/2) ([28, 29] : List ℤ).length),
            7 + pyround (claimedWeightedMean [28, 29]) - max 2 (pyround (1/2)),
            7 + pyround (claimedWeightedMean [28, 29]) + max 2 (pyround (1/2))⟩
    ∧ predict_next_cycle [] 0 11 = (11 + 28, 1/10)
    ∧ predict_next_cycle [42] 0 11 = (42 + 28, 3/10) :=
  ⟨by decide, C5_amended.1 7 0, C5_amended.2.1 7 [28, 29] (1/2) (by decide),
    C5_amended.2.2.1 0 11, C5_amended.2.2.2 42 0 11⟩

/-- Claim C6 counterexample: at cycle day 29 with average length 28 the claim
demands late_luteal from every phase-reporting path, but the dashboard and the
current-cycle endpoints have no late_luteal arm and report luteal, while only
the analyzer tool reports late_luteal. -/
theorem C6_counterexample :
    dashboard_phase 29 = "luteal"
    ∧ current_cycle_phase 29 = "luteal"
    ∧ _determine_current_phase 29 28 = "late_luteal"
    ∧ ((28:ℚ) < 29)
    ∧ (("luteal" : String) ≠ "late_luteal") := by
  refine ⟨?_, ?_, ?_, by norm_num, by decide⟩
  · norm_num [dashboard_phase]
  · norm_num [current_cycle_phase]
  · have hp : pyround (28:ℚ) = 28 := by norm_num [pyround]
    norm_num [_determine_current_phase, hp]

/-- Claim C6 amended: for every cycle day d of at least 1, the analyzer tool
realizes the five claimed ranges with the luteal upper bound round(avg);
the dashboard and current-cycle endpoints realize only the first four ranges,
reporting luteal for every day beyond 16 with no late_luteal arm. -/
theorem C6_amended (d : ℤ) (avg : ℚ) (h : 1 ≤ d) :
    _determine_current_phase d avg = claimedPhase5 d (pyround avg)
    ∧ dashboard_phase d = claimedPhase4 d
    ∧ current_cycle_phase d = claimedPhase4 d := by
  refine ⟨?_, ?_, ?_⟩ <;>
    · simp only [_determine_current_phase, claimedPhase5, dashboard_phase,
        current_cycle_phase, claimedPhase4]
      split_ifs <;> first | rfl | omega

/-- Claim C6 amended, witness at cycle day 20 with average length 28. -/
theorem C6_amended_witness :
    ((1:ℤ) ≤ 20)
    ∧ _determine_current_phase 20 28 = claimedPhase5 20 (pyround 28)
    ∧ dashboard_phase 20 = claimedPhase4 20
    ∧ current_cycle_phase 20 = claimedPhase4 20 :=
  ⟨by decide, (C6_amended 20 28 (by decide)).1, (C6_amended 20 28 (by decide)).2.1,
    (C6_amended 20 28 (by decide)).2.2⟩

/-- Claim C2 counterexample: on birth control the current-cycle endpoint nulls
the fertile_window object but still computes and returns the derived
indicator is_fertile_window.  One cycle starting day 0, queried on day 13
(inside the suppressed window day 9 to day 15), yields fertile_window = none
together with is_fertile_window = true. -/
theorem C2_counterexample :
    bcUser.is_on_birth_control = true
    ∧ ((get_current_cycle bcUser bcCycle 13).map fun o =>
          (o.fertile_window, o.is_fertile_window)) = some (none, true) := by
  constructor
  · rfl
  · have hl : latestEntry bcCycle = some (mkCycle 0 none) := by decide
    have hsl : storedLengths bcCycle = [] := by decide
    have hp : pyround (14 : ℚ) = 14 := by norm_num [pyround]
    simp only [get_current_cycle, hl, hsl, mkCycle, bcUser]
    norm_num [hp, current_cycle_phase]

/-- Claim C2 amended: on birth control the fertile_window object of the
current-cycle endpoint and the next_ovulation and fertile-window bounds of
the prediction endpoint are always null; the boolean is_fertile_window,
however, is still computed from the suppressed window and returned (see the
C2 counterexample). -/
theorem C2_amended (u : User) (cycles : List CycleEntry) (std : ℚ) (today : ℤ)
    (hBC : u.is_on_birth_control = true) :
    ((get_current_cycle u cycles today).map fun o => o.fertile_window).getD none
        = none
    ∧ ((get_cycle_prediction u cycles std today).map
          fun o => o.next_ovulation).getD none = none
    ∧ ((get_cycle_prediction u cycles std today).map
          fun o => o.fertile_window_lo).getD none = none
    ∧ ((get_cycle_prediction u cycles std today).map
          fun o => o.fertile_window_hi).getD none = none := by
  refine ⟨?_, ?_, ?_, ?_⟩
  · rcases hl : latestEntry cycles with - | latest
    · simp [get_current_cycle, hl]
    · simp [get_current_cycle, hl, hBC]
  all_goals
    by_cases hlen : cycles.length < 2
    · simp [get_cycle_prediction, hlen]
    · simp [get_cycle_prediction, hlen, hBC]

/-- Claim C2 amended, witness: a birth-control profile with four cycles. -/
theorem C2_amended_witness :
    (bcUser.is_on_birth_control = true)
    ∧ ((get_current_cycle bcUser c100 0).map fun o => o.fertile_window).getD none
        = none
    ∧ ((get_cycle_prediction bcUser c100 0 0).map
          fun o => o.next_ovulation).getD none = none
    ∧ ((get_cycle_prediction bcUser c100 0 0).map
          fun o => o.fertile_window_lo).getD none = none
    ∧ ((get_cycle_prediction bcUser c100 0 0).map
          fun o => o.fertile_window_hi).getD none = none :=
  ⟨rfl, (C2_amended bcUser c100 0 0 rfl).1, (C2_amended bcUser c100 0 0 rfl).2.1,
    (C2_amended bcUser c100 0 0 rfl).2.2.1, (C2_amended bcUser c100 0 0 rfl).2.2.2⟩
